import Mathlib

/-!
Verification of the golf-swing-analyzer repository against its
natural-language specification.

The development shallowly embeds the two code units the claims are about:

* the Java Spring chatbot (ChatController, ChatService, ChatConfig,
  GlobalExceptionHandler), embedded over `List Char` messages with the
  Java regular-expression word-boundary semantics of the three keyword
  patterns spelled out explicitly; and

* the Python analysis helpers (safe_divide, calculate_angle_3d, the frame
  sampling loop and the threshold comparison).  The Python files
  themselves are not in the repository; where only a partial snippet is
  quoted in the repository documents, the remainder is modelled from the
  specification and the doc comment of the Lean definition says so.

Rationals stand for Python floats where only field arithmetic occurs, and
real numbers where square roots and arccos are needed.
-/

namespace GolfSwingCheck

/-! ## Chatbot embedding (ChatService.java, ChatController.java) -/

/-- The four response values held by ChatService: the greeting, farewell
and help replies and the default fallback reply. -/
inductive Response where
  | greetingResponse
  | farewellResponse
  | helpResponse
  | defaultResponse
  deriving DecidableEq

/-- Java regex default word-character class (backslash-w): ASCII letters,
ASCII digits and underscore.  The chatbot patterns are compiled without
UNICODE_CHARACTER_CLASS, so Korean syllables are not word characters. -/
def isWordChar (c : Char) : Bool :=
  c.isAlphanum || c == '_'

/-- Whether index `i` of `s` holds a word character; out-of-range indices
count as non-word, which is how Java regex treats the ends of the input. -/
def isWordAt (s : List Char) (i : Nat) : Bool :=
  match s.get? i with
  | some c => isWordChar c
  | none => false

/-- Java regex word boundary (backslash-b) at position `i` of `s`
(positions run from 0 to `s.length`): the word-character status changes
between the previous character and the current one. -/
def wordBoundaryAt (s : List Char) (i : Nat) : Bool :=
  (if i = 0 then false else isWordAt s (i - 1)) != isWordAt s i

/-- The pattern  backslash-b w backslash-b  matches `s` at position `i`:
`w` occurs at `i` and both ends of the occurrence sit on word boundaries. -/
def matchWordAt (w s : List Char) (i : Nat) : Bool :=
  w.isPrefixOf (s.drop i) && wordBoundaryAt s i && wordBoundaryAt s (i + w.length)

/-- Matcher.find for a pattern of the form
backslash-b (w1 | w2 | ...) backslash-b : some alternative matches at some
position of `s`. -/
def findWord (ws : List (List Char)) (s : List Char) : Bool :=
  (List.range (s.length + 1)).any fun i => ws.any fun w => matchWordAt w s i

/-- Alternatives of greetingPattern in ChatService. -/
def greetingWords : List (List Char) :=
  ["안녕".toList, "hello".toList, "hi".toList, "hey".toList]

/-- Alternatives of farewellPattern in ChatService. -/
def farewellWords : List (List Char) :=
  ["잘가".toList, "bye".toList, "goodbye".toList, "farewell".toList]

/-- Alternatives of helpPattern in ChatService. -/
def helpWords : List (List Char) :=
  ["도움".toList, "help".toList, "?".toList]

/-- The whitespace test of java.lang.String.trim: code point at most 32. -/
def isJavaSpace (c : Char) : Bool :=
  decide (c.toNat ≤ 32)

/-- java.lang.String.trim: strip leading and trailing characters of code
point at most 32. -/
def javaTrim (s : List Char) : List Char :=
  ((s.dropWhile isJavaSpace).reverse.dropWhile isJavaSpace).reverse

/-- java.lang.String.toLowerCase, character-wise.  The inputs the chatbot
handles are ASCII and Korean, on which the Java mapping is exactly the
character-wise one. -/
def javaToLower (s : List Char) : List Char :=
  s.map Char.toLower

/-- ChatService.processMessage: a null or blank message yields the default
response; otherwise the message is lower-cased and trimmed and the three
word-bounded keyword patterns are tried in order greeting, farewell, help,
falling through to the default response. -/
def processMessage (message : Option (List Char)) : Response :=
  match message with
  | none => Response.defaultResponse
  | some m =>
    if (javaTrim m).isEmpty then Response.defaultResponse
    else
      let normalizedMessage := javaTrim (javaToLower m)
      if findWord greetingWords normalizedMessage then Response.greetingResponse
      else if findWord farewellWords normalizedMessage then Response.farewellResponse
      else if findWord helpWords normalizedMessage then Response.helpResponse
      else Response.defaultResponse

/-- Plain substring containment, the relation the specification says the
matcher uses. -/
def containsSubstring (w s : List Char) : Bool :=
  (List.range (s.length + 1)).any fun i => w.isPrefixOf (s.drop i)

/-- Default of ChatConfig.maxMessageLength; the Size annotation on the
controller parameter carries the same literal 500. -/
def maxMessageLength : Nat := 500

/-- ChatController.processMessage observed at the HTTP level, returning
the status code and whether ChatService.processMessage was invoked.  The
Validated / NotBlank / Size annotations make Spring reject a null, blank
or over-long parameter with a ConstraintViolationException before the
handler body runs; GlobalExceptionHandler maps it to HTTP 400.  Otherwise
the handler calls the service and answers 200. -/
def controllerProcessMessage (message : Option (List Char)) : Nat × Bool :=
  match message with
  | none => (400, false)
  | some m =>
    if (javaTrim m).isEmpty then (400, false)
    else if maxMessageLength < m.length then (400, false)
    else (200, true)

/-! ## Python analysis helpers -/

/-- safe_divide from utils.py, whose final text is quoted in README.md.
Operands are Python values: None, a number (a rational standing for the
float), or some non-numeric value.  The branches mirror the Python code:
a None operand returns the default; a non-numeric denominator makes
abs raise TypeError, caught and turned into the default; a denominator of
magnitude below 1e-10 returns the default; a non-numeric numerator makes
the division raise TypeError, caught likewise; otherwise the quotient is
returned. -/
inductive PyValue where
  | pyNone
  | num (x : ℚ)
  | nonNumeric
  deriving DecidableEq

def safe_divide (numerator denominator : PyValue) (dflt : ℚ) : ℚ :=
  match numerator, denominator with
  | .pyNone, _ => dflt
  | _, .pyNone => dflt
  | _, .nonNumeric => dflt
  | .nonNumeric, .num _ => dflt
  | .num n, .num d => if |d| < 1 / 10 ^ 10 then dflt else n / d

/-- MAX_FRAMES from config.py, quoted in the repository documents. -/
def MAX_FRAMES : Nat := 300

/-- Modelled from the spec: swing_analyzer.py is not in the repository;
the loop of _collect_frames is quoted in the documents as keeping a frame
when its running index is divisible by
max 1 (total_frames / MAX_FRAMES) and stopping once MAX_FRAMES frames are
kept or the video ends.  The function returns the kept frame indices of a
video of `total_frames` frames. -/
def collect_frames (total_frames : Nat) : List Nat :=
  ((List.range total_frames).filter
    fun i => i % max 1 (total_frames / MAX_FRAMES) == 0).take MAX_FRAMES

/-- Threshold arm_angle_min of the THRESHOLDS table in config.py, quoted
in the repository documents. -/
def arm_angle_min : ℚ := 165

/-- Modelled from the spec: the classifier code around the quoted
comparison is not in the repository; the documents quote the comparison
itself as  arm_angle >= THRESHOLDS, arm_angle_min entry. -/
def armAnglePass (arm_angle : ℚ) : Bool :=
  decide (arm_angle_min ≤ arm_angle)

/-- A 3D landmark point. -/
abbrev Point3 := ℝ × ℝ × ℝ

/-- Pointwise difference, as np.array subtraction of two 3-vectors. -/
def subPoint3 (p q : Point3) : Point3 :=
  (p.1 - q.1, p.2.1 - q.2.1, p.2.2 - q.2.2)

/-- np.dot on 3-vectors. -/
def dot3 (u v : Point3) : ℝ :=
  u.1 * v.1 + u.2.1 * v.2.1 + u.2.2 * v.2.2

/-- np.linalg.norm on 3-vectors. -/
noncomputable def norm3 (u : Point3) : ℝ :=
  Real.sqrt (dot3 u u)

/-- Modelled from the spec: utils.py is not in the repository.  The doc
snippet in FINAL_CODE_IMPROVEMENTS.md gives the None checks and the
near-zero-norm fallback of calculate_angle_3d; the spec describes the
continuation as the arccosine of the normalized dot product converted to
degrees, the cosine being clipped to [-1, 1] before arccos for numerical
safety. -/
noncomputable def calculate_angle_3d (p1 p2 p3 : Option Point3) : ℝ :=
  match p1, p2, p3 with
  | some a, some b, some c =>
    if norm3 (subPoint3 a b) < 1 / 10 ^ 10 ∨
        norm3 (subPoint3 c b) < 1 / 10 ^ 10 then 0
    else
      Real.arccos (min 1 (max (-1)
        (dot3 (subPoint3 a b) (subPoint3 c b) /
          (norm3 (subPoint3 a b) * norm3 (subPoint3 c b))))) * 180 / Real.pi
  | _, _, _ => 0

/-! ## Helper lemmas about the chatbot embedding -/

/-- A message whose trim is empty is all whitespace. -/
theorem javaTrim_nil_all (m : List Char) (h : javaTrim m = []) :
    ∀ c ∈ m, c.toNat ≤ 32 := by
  unfold javaTrim at h
  rw [List.reverse_eq_nil_iff, List.dropWhile_eq_nil_iff] at h
  intro c hc
  rcases (List.takeWhile_append_dropWhile (p := isJavaSpace) (l := m)) ▸ hc with h1
  rw [List.mem_append] at h1
  rcases h1 with h1 | h1
  · have := List.mem_takeWhile_imp h1
    simpa [isJavaSpace] using this
  · have := h c (by simpa using h1)
    simpa [isJavaSpace] using this

/-- An all-whitespace message trims to the empty message. -/
theorem javaTrim_nil_of_all (m : List Char) (h : ∀ c ∈ m, c.toNat ≤ 32) :
    javaTrim m = [] := by
  unfold javaTrim
  rw [List.reverse_eq_nil_iff, List.dropWhile_eq_nil_iff]
  intro c hc
  have : c ∈ m := by
    have := List.dropWhile_sublist (l := m) (p := isJavaSpace)
    exact this.mem (by simpa using hc)
  simpa [isJavaSpace] using h c this

/-- Lower-casing fixes whitespace characters. -/
theorem toLower_eq_self_of_space (c : Char) (h : c.toNat ≤ 32) :
    c.toLower = c := by
  unfold Char.toLower
  have h65 : ¬ (65 ≤ c.toNat) := by omega
  simp [Char.toNat] at h65 ⊢
  omega

/-- Lower-casing an all-whitespace message changes nothing. -/
theorem javaToLower_eq_self (m : List Char) (h : ∀ c ∈ m, c.toNat ≤ 32) :
    javaToLower m = m := by
  unfold javaToLower
  induction m with
  | nil => rfl
  | cons c t ih =>
    simp only [List.map_cons]
    rw [toLower_eq_self_of_space c (h c (List.mem_cons_self c t)), ih]
    intro x hx
    exact h x (List.mem_cons_of_mem c hx)

/-- The normalized message is empty whenever the raw trim is empty. -/
theorem normalized_nil (m : List Char) (h : javaTrim m = []) :
    javaTrim (javaToLower m) = [] := by
  rw [javaToLower_eq_self m (javaTrim_nil_all m h), h]

/-- Characterization of processMessage on a present message: the result
is read off the three word-bounded patterns applied to the lower-cased,
trimmed message, in the order greeting, farewell, help, default. -/
theorem processMessage_some_eq (m : List Char) :
    processMessage (some m) =
      (if findWord greetingWords (javaTrim (javaToLower m)) then
        Response.greetingResponse
      else if findWord farewellWords (javaTrim (javaToLower m)) then
        Response.farewellResponse
      else if findWord helpWords (javaTrim (javaToLower m)) then
        Response.helpResponse
      else Response.defaultResponse) := by
  unfold processMessage
  by_cases h : (javaTrim m).isEmpty
  · have hn : javaTrim (javaToLower m) = [] :=
      normalized_nil m (by simpa [List.isEmpty_iff] using h)
    rw [hn]
    have hg : findWord greetingWords [] = false := by decide
    have hf : findWord farewellWords [] = false := by decide
    have hh : findWord helpWords [] = false := by decide
    simp [h, hg, hf, hh]
  · simp [h]

/-! ## Claim theorems about the chatbot -/

/-- C1 (counterexample): the message byebye contains the keyword bye as a
case-insensitive substring, yet processMessage answers the default
response rather than the farewell response, because the compiled patterns
require word boundaries around the keyword. -/
theorem C1_substring_counterexample :
    containsSubstring "bye".toList (javaToLower "byebye".toList) = true ∧
    processMessage (some "byebye".toList) = Response.defaultResponse := by
  constructor
  · decide
  · decide

/-- C1 (amended): for every input message, processMessage returns the
greeting response exactly when the lower-cased trimmed message has a
whole-word occurrence (Java word-boundary semantics, ASCII word
characters) of a greetingPattern alternative; otherwise the farewell
response for a whole-word farewellPattern occurrence; otherwise the help
response for a whole-word helpPattern occurrence; otherwise the default
response. -/
theorem C1_keyword_matcher (m : List Char) :
    processMessage (some m) =
      (if findWord greetingWords (javaTrim (javaToLower m)) then
        Response.greetingResponse
      else if findWord farewellWords (javaTrim (javaToLower m)) then
        Response.farewellResponse
      else if findWord helpWords (javaTrim (javaToLower m)) then
        Response.helpResponse
      else Response.defaultResponse) :=
  processMessage_some_eq m

/-- C8: a null message, and a message all of whose characters are
whitespace (code point at most 32), both yield the default response; the
embedded processMessage is a total function, so no exception is raised. -/
theorem C8_blank_message_default (m : List Char) (h : ∀ c ∈ m, c.toNat ≤ 32) :
    processMessage none = Response.defaultResponse ∧
    processMessage (some m) = Response.defaultResponse := by
  refine ⟨rfl, ?_⟩
  have hT : javaTrim m = [] := javaTrim_nil_of_all m h
  simp [processMessage, hT]

/-- Witness for C8 at the concrete whitespace message of a space and a
tab. -/
theorem C8_blank_message_default_witness :
    processMessage (some [' ', '\t']) = Response.defaultResponse :=
  (C8_blank_message_default [' ', '\t'] (by decide)).2

/-- C9: keyword categories are resolved in the fixed order greeting,
farewell, help: a greeting match wins outright, a farewell match wins over
a help match, and the help response needs both earlier patterns to fail. -/
theorem C9_category_precedence (m : List Char) :
    (findWord greetingWords (javaTrim (javaToLower m)) = true →
      processMessage (some m) = Response.greetingResponse) ∧
    (findWord greetingWords (javaTrim (javaToLower m)) = false →
      findWord farewellWords (javaTrim (javaToLower m)) = true →
      processMessage (some m) = Response.farewellResponse) ∧
    (findWord greetingWords (javaTrim (javaToLower m)) = false →
      findWord farewellWords (javaTrim (javaToLower m)) = false →
      findWord helpWords (javaTrim (javaToLower m)) = true →
      processMessage (some m) = Response.helpResponse) := by
  refine ⟨?_, ?_, ?_⟩
  · intro hg
    rw [processMessage_some_eq m, hg]
    rfl
  · intro hg hf
    rw [processMessage_some_eq m, hg, hf]
    rfl
  · intro hg hf hh
    rw [processMessage_some_eq m, hg, hf, hh]
    rfl

/-- Witness for C9: the message  hello bye  matches both the greeting and
the farewell patterns and yields the greeting response; the message
bye help  matches both the farewell and the help patterns and yields the
farewell response. -/
theorem C9_category_precedence_witness :
    processMessage (some "hello bye".toList) = Response.greetingResponse ∧
    processMessage (some "bye help".toList) = Response.farewellResponse :=
  ⟨(C9_category_precedence "hello bye".toList).1 (by decide),
   (C9_category_precedence "bye help".toList).2.1 (by decide) (by decide)⟩

/-- C10: a null message, a blank message, or a message longer than the
configured 500-character limit is rejected with HTTP 400 by the parameter
validation before the handler body runs, and ChatService.processMessage is
not invoked. -/
theorem C10_controller_validation (m : Option (List Char))
    (h : m = none ∨ ∃ s, m = some s ∧
      ((javaTrim s).isEmpty = true ∨ maxMessageLength < s.length)) :
    controllerProcessMessage m = (400, false) := by
  rcases h with h | ⟨s, rfl, hs | hs⟩
  · rw [h]
    rfl
  · simp [controllerProcessMessage, hs]
  · by_cases hE : (javaTrim s).isEmpty = true
    · simp [controllerProcessMessage, hE]
    · simp [controllerProcessMessage, hE, hs]

/-- Witness for C10 at a 501-character message. -/
theorem C10_controller_validation_witness :
    controllerProcessMessage (some (List.replicate 501 'a')) = (400, false) :=
  C10_controller_validation (some (List.replicate 501 'a'))
    (Or.inr ⟨List.replicate 501 'a', rfl, Or.inr (by norm_num [maxMessageLength])⟩)

/-! ## Claim theorems about the Python helpers -/

/-- C7: safe_divide is total (so never raises): a None operand yields the
default, a denominator of magnitude under 1e-10 yields the default, a
non-numeric operand (whose abs or division would raise TypeError) yields
the default, and two numbers with a large-enough denominator yield the
quotient. -/
theorem C7_safe_divide_spec (a b : PyValue) (dflt : ℚ) :
    (a = PyValue.pyNone ∨ b = PyValue.pyNone → safe_divide a b dflt = dflt) ∧
    (∀ d : ℚ, b = PyValue.num d → |d| < 1 / 10 ^ 10 →
      safe_divide a b dflt = dflt) ∧
    (a = PyValue.nonNumeric ∨ b = PyValue.nonNumeric →
      safe_divide a b dflt = dflt) ∧
    (∀ n d : ℚ, a = PyValue.num n → b = PyValue.num d → 1 / 10 ^ 10 ≤ |d| →
      safe_divide a b dflt = n / d) := by
  refine ⟨?_, ?_, ?_, ?_⟩
  · rintro (rfl | rfl)
    · cases b <;> rfl
    · cases a <;> rfl
  · rintro d rfl
    intro hd
    cases a with
    | pyNone => rfl
    | nonNumeric => rfl
    | num n =>
      simp only [safe_divide]
      rw [if_pos hd]
  · rintro (rfl | rfl)
    · cases b <;> rfl
    · cases a <;> rfl
  · rintro n d rfl rfl hd
    simp only [safe_divide]
    rw [if_neg (not_lt.mpr hd)]

/-- Witness for C7: 6 divided by 3 with default 0 gives 2. -/
theorem C7_safe_divide_spec_witness :
    safe_divide (PyValue.num 6) (PyValue.num 3) 0 = 6 / 3 :=
  (C7_safe_divide_spec (PyValue.num 6) (PyValue.num 3) 0).2.2.2 6 3 rfl rfl
    (by rw [abs_of_pos (by norm_num : (0:ℚ) < 3)]; norm_num)

/-- C3: a value exactly at the configured boundary passes: the arm-angle
comparison is inclusive, so an arm angle equal to arm_angle_min (165)
is classified as passing. -/
theorem C3_boundary_inclusive : armAnglePass arm_angle_min = true := by
  decide

/-- C4: the frame sampler keeps at most MAX_FRAMES frames whatever the
length of the source video. -/
theorem C4_frame_cap (total_frames : Nat) :
    (collect_frames total_frames).length ≤ MAX_FRAMES := by
  unfold collect_frames
  rw [List.length_take]
  exact min_le_left _ _

/-- C5: a video of at most MAX_FRAMES frames is kept whole: the skip
ratio degenerates to 1 and the sampler yields every frame index. -/
theorem C5_short_video_all_frames (total_frames : Nat)
    (h : total_frames ≤ MAX_FRAMES) :
    collect_frames total_frames = List.range total_frames := by
  unfold collect_frames
  have hdiv : total_frames / MAX_FRAMES ≤ 1 := by
    calc total_frames / MAX_FRAMES ≤ MAX_FRAMES / MAX_FRAMES :=
          Nat.div_le_div_right h
    _ = 1 := by decide
  rw [max_eq_left hdiv]
  have hfilter :
      (List.range total_frames).filter (fun i => i % 1 == 0) =
        List.range total_frames := by
    apply List.filter_eq_self.mpr
    intro i _
    simp [Nat.mod_one]
  rw [hfilter]
  apply List.take_of_length_le
  simpa using h

/-- Witness for C5 at a five-frame video. -/
theorem C5_short_video_all_frames_witness :
    collect_frames 5 = List.range 5 :=
  C5_short_video_all_frames 5 (by decide)

/-! ## Claim theorems about the 3D angle -/

/-- A degree value built from arccos lies between 0 and 180. -/
theorem arccos_deg_range (x : ℝ) :
    0 ≤ Real.arccos x * 180 / Real.pi ∧ Real.arccos x * 180 / Real.pi ≤ 180 := by
  constructor
  · exact div_nonneg (mul_nonneg (Real.arccos_nonneg x) (by norm_num))
      Real.pi_pos.le
  · rw [div_le_iff₀ Real.pi_pos]
    nlinarith [Real.arccos_le_pi x]

/-- Cauchy–Schwarz on 3-vectors, through the Lagrange identity. -/
theorem abs_dot3_le (u v : Point3) : |dot3 u v| ≤ norm3 u * norm3 v := by
  have hsq : dot3 u v ^ 2 ≤ dot3 u u * dot3 v v := by
    simp only [dot3]
    nlinarith [sq_nonneg (u.1 * v.2.1 - u.2.1 * v.1),
      sq_nonneg (u.1 * v.2.2 - u.2.2 * v.1),
      sq_nonneg (u.2.1 * v.2.2 - u.2.2 * v.2.1)]
  have huu : 0 ≤ dot3 u u := by
    simp only [dot3]
    nlinarith [sq_nonneg u.1, sq_nonneg u.2.1, sq_nonneg u.2.2]
  rw [← Real.sqrt_sq_eq_abs, norm3, norm3, ← Real.sqrt_mul huu]
  exact Real.sqrt_le_sqrt hsq

/-- C2: the angle is always between 0 and 180 degrees; an absent input
point yields the fallback 0; a near-zero vector from the middle point
yields the fallback 0.  The embedded function is total, so no exception
is raised. -/
theorem C2_angle_range_fallback (p1 p2 p3 : Option Point3) :
    (0 ≤ calculate_angle_3d p1 p2 p3 ∧ calculate_angle_3d p1 p2 p3 ≤ 180) ∧
    (p1 = none ∨ p2 = none ∨ p3 = none → calculate_angle_3d p1 p2 p3 = 0) ∧
    (∀ a b c, p1 = some a → p2 = some b → p3 = some c →
      norm3 (subPoint3 a b) < 1 / 10 ^ 10 ∨
        norm3 (subPoint3 c b) < 1 / 10 ^ 10 →
      calculate_angle_3d p1 p2 p3 = 0) := by
  refine ⟨?_, ?_, ?_⟩
  · rcases p1 with _ | a
    · norm_num [calculate_angle_3d]
    rcases p2 with _ | b
    · norm_num [calculate_angle_3d]
    rcases p3 with _ | c
    · norm_num [calculate_angle_3d]
    simp only [calculate_angle_3d]
    split_ifs with hdeg
    · norm_num
    · exact arccos_deg_range _
  · rintro (rfl | rfl | rfl)
    · rfl
    · rcases p1 with _ | a <;> rfl
    · rcases p1 with _ | a <;> rcases p2 with _ | b <;> rfl
  · rintro a b c rfl rfl rfl hdeg
    simp only [calculate_angle_3d]
    rw [if_pos hdeg]

/-- Witness for C2: an absent first point, and the degenerate triple with
all three points equal, both give the fallback. -/
theorem C2_angle_range_fallback_witness :
    calculate_angle_3d none (some (0, 0, 0)) none = 0 ∧
    calculate_angle_3d (some ((1:ℝ), 0, 0)) (some (1, 0, 0))
      (some (2, 0, 0)) = 0 :=
  ⟨(C2_angle_range_fallback none (some (0, 0, 0)) none).2.1 (Or.inl rfl),
   (C2_angle_range_fallback (some ((1:ℝ), 0, 0)) (some (1, 0, 0))
      (some (2, 0, 0))).2.2 _ _ _ rfl rfl rfl
      (Or.inl (by
        simp only [norm3, subPoint3, dot3]
        norm_num [Real.sqrt_zero]))⟩

/-- C6: when both vectors from the middle point have magnitude at least
1e-10, the angle is the arccosine of the dot product over the product of
the norms, converted to degrees (the clip to [-1, 1] is the identity by
Cauchy–Schwarz). -/
theorem C6_angle_formula (a b c : Point3)
    (h1 : 1 / 10 ^ 10 ≤ norm3 (subPoint3 a b))
    (h2 : 1 / 10 ^ 10 ≤ norm3 (subPoint3 c b)) :
    calculate_angle_3d (some a) (some b) (some c) =
      Real.arccos (dot3 (subPoint3 a b) (subPoint3 c b) /
        (norm3 (subPoint3 a b) * norm3 (subPoint3 c b))) * 180 / Real.pi := by
  have ht : (0:ℝ) < 1 / 10 ^ 10 := by norm_num
  have hn1 : 0 < norm3 (subPoint3 a b) := lt_of_lt_of_le ht h1
  have hn2 : 0 < norm3 (subPoint3 c b) := lt_of_lt_of_le ht h2
  have hprod : 0 < norm3 (subPoint3 a b) * norm3 (subPoint3 c b) :=
    mul_pos hn1 hn2
  have hq : |dot3 (subPoint3 a b) (subPoint3 c b) /
      (norm3 (subPoint3 a b) * norm3 (subPoint3 c b))| ≤ 1 := by
    rw [abs_div, abs_of_pos hprod, div_le_one hprod]
    exact abs_dot3_le _ _
  simp only [calculate_angle_3d]
  rw [if_neg (by push_neg; exact ⟨h1, h2⟩)]
  rw [max_eq_right (neg_le_of_abs_le hq), min_eq_right (le_of_abs_le hq)]

/-- Witness for C6 at the right-angle triple (1,0,0), (0,0,0), (0,1,0). -/
theorem C6_angle_formula_witness :
    calculate_angle_3d (some ((1:ℝ), 0, 0)) (some (0, 0, 0))
      (some (0, 1, 0)) =
      Real.arccos (dot3 (subPoint3 ((1:ℝ), 0, 0) ((0:ℝ), 0, 0))
          (subPoint3 ((0:ℝ), 1, 0) ((0:ℝ), 0, 0)) /
        (norm3 (subPoint3 ((1:ℝ), 0, 0) ((0:ℝ), 0, 0)) *
          norm3 (subPoint3 ((0:ℝ), 1, 0) ((0:ℝ), 0, 0)))) * 180 / Real.pi :=
  C6_angle_formula ((1:ℝ), 0, 0) ((0:ℝ), 0, 0) ((0:ℝ), 1, 0)
    (by
      simp only [norm3, subPoint3, dot3]
      norm_num [Real.sqrt_one])
    (by
      simp only [norm3, subPoint3, dot3]
      norm_num [Real.sqrt_one])

end GolfSwingCheck
